import Mathlib

/-!
Shallow embedding of the WhatsApp webhook relay (webhook_server.js and its
fuller variant): webhook verification, inbound-notification message
extraction, and the per-message orchestrator that validates the 8-digit
approval code, calls the processing endpoint, and sends acknowledgment /
result / fallback messages through the delivery endpoint.

Outbound effects are modelled as a trace of events: the HTTP response to
the webhook caller, calls to the processing endpoint, and messages sent to
the delivery endpoint.
-/

/-- Model of JavaScript String.prototype.trim: remove whitespace characters
from both ends of the string. -/
def jsTrim (s : String) : String :=
  ⟨((s.data.dropWhile Char.isWhitespace).reverse.dropWhile Char.isWhitespace).reverse⟩

/-- JavaScript regex test for the approval code: the trimmed message body
matches the 8-digit pattern exactly (8 characters, all decimal digits). -/
def isEightDigits (s : String) : Bool :=
  s.length == 8 && s.data.all Char.isDigit

/-- JavaScript truthiness of an optional string field: present and non-empty. -/
def truthyStr : Option String → Bool
  | none => false
  | some s => !(s == "")

/-- JavaScript fallback idiom on a string field: the value when truthy, the
default otherwise. -/
def jsOr (o : Option String) (d : String) : String :=
  match o with
  | none => d
  | some s => if s == "" then d else s

namespace WaApi

/-- Outcome of the processing-endpoint call (axios.post to PROCESSING_API_URL):
either the promise resolves with a response whose data may or may not be a
usable object, or it rejects (timeout, network error, non-2xx status). -/
structure ProcResult where
  ui_output_8 : Option String
  overall_response : Option String
  deriving DecidableEq, Repr

/-- The two-valued outcome of the processing call: resolved with (optional)
data, or rejected. -/
inductive ApiOutcome where
  | success (result : Option ProcResult)
  | failure
  deriving DecidableEq, Repr

/-- Observable outbound effects of the server, in order: the HTTP response
sent back to the webhook caller, a request issued to the processing endpoint,
and a message handed to the delivery endpoint (sendResponseMessage). -/
inductive Event where
  | respond (status : Nat) (body : String)
  | callProcessing (approvalNumber : String)
  | send (recipient : String) (body : String)
  deriving DecidableEq, Repr

/-- Whether an event is an HTTP response to the webhook caller. -/
def Event.isRespond : Event → Bool
  | .respond _ _ => true
  | _ => false

/-- Whether an event is a call to the processing endpoint. -/
def Event.isCallProcessing : Event → Bool
  | .callProcessing _ => true
  | _ => false

/-- Whether an event is a message sent through the delivery endpoint. -/
def Event.isSend : Event → Bool
  | .send _ _ => true
  | _ => false

/-- The help template sent by sendHelpMessage for invalid input. -/
def helpMessage : String :=
  "مرحباً! 👋\n\nللاستعلام عن حالة الموافقة المسبقة، يرجى إرسال رقم الموافقة (8 أرقام).\n\nمثال: 88825481\n\n━━━━━━━━━━━━━━━━━━━━━━\n\nHello! 👋\n\nTo check your preauthorization status, please send your approval number (8 digits).\n\nExample: 88825481\n\n🤖 Tawuniya AI Assistant"

/-- The message body built by sendErrorMessage around a given error text. -/
def errorMessageBody (errorText : String) : String :=
  "⚠️ " ++ errorText ++ "\n\nيرجى المحاولة مرة أخرى أو الاتصال بخدمة العملاء.\nPlease try again or contact customer service.\n\n📞 920000812"

/-- The error text passed to sendErrorMessage when the processing response
lacks a usable ui_output_8 field. -/
def processFailedText : String :=
  "فشل في معالجة الطلب / Failed to process request"

/-- The acknowledgment sent after the 500 ms delay once the processing call
is in flight. -/
def ackMessage (approvalNumber : String) : String :=
  "🤖 I\x27m AI Agent, I\x27ll check your request and reply ASAP\n\nأنا وكيل الذكاء الاصطناعي، سأتحقق من طلبك وأرد في أقرب وقت\n\nApproval Number: " ++ approvalNumber

/-- The bilingual fallback sent when the processing call fails. -/
def fallbackMessage (approvalNumber : String) : String :=
  "تم استلام رقم الموافقة: " ++ approvalNumber ++ "\n\nسيتم معالجة طلبك قريباً.\n\nApproval number received: " ++ approvalNumber ++ "\nYour request will be processed shortly."

/-- The own property names of Object.prototype in the Node.js runtime,
reachable through the prototype chain of the statusEmoji object literal. -/
def objectPrototypeKeys : List String :=
  ["constructor", "__defineGetter__", "__defineSetter__", "hasOwnProperty",
   "__lookupGetter__", "__lookupSetter__", "isPrototypeOf",
   "propertyIsEnumerable", "toString", "valueOf", "__proto__",
   "toLocaleString"]

/-- The template-interpolation rendering of a member inherited from
Object.prototype in the Node.js runtime: the constructor member is the
Object function and the other function members render as native-code
function strings, while the accessor named with the proto underscores
returns Object.prototype itself, rendering as the plain object string. -/
def inheritedMemberString : String → String
  | "constructor" => "function Object() \x7b [native code] \x7d"
  | "__proto__" => "[object Object]"
  | name => "function " ++ name ++ "() \x7b [native code] \x7d"

/-- The statusEmoji lookup of formatResponseMessage, the JavaScript
expression reading the object literal with the or-default. An own key of
the literal gives its glyph. Any other key naming a member inherited from
Object.prototype yields that member — a truthy value, so the or-default
does not apply and the interpolated glyph slot is the rendering of the
inherited member. All remaining keys read as undefined and fall back to
the 📋 glyph. -/
def statusEmoji (overallResponse : String) : String :=
  if overallResponse == "A" then "✅"
  else if overallResponse == "D" then "❌"
  else if overallResponse == "F" then "⚠️"
  else if overallResponse == "P" then "⚠️"
  else if overallResponse ∈ objectPrototypeKeys then
    inheritedMemberString overallResponse
  else "📋"

/-- Template text between the status glyph and the approval number. -/
def resultHeaderPart : String :=
  " *نتيجة الموافقة المسبقة / Preauthorization Result*\n\n*رقم الموافقة / Approval Number:* "

/-- Template text between the approval number and the status letter. -/
def resultStatusPart : String :=
  "\n\n*الحالة / Status:* "

/-- Template text between the status letter and the summary text. -/
def resultSeparatorPart : String :=
  "\n\n━━━━━━━━━━━━━━━━━━━━━━\n\n"

/-- Template text after the summary text. -/
def resultFooterPart : String :=
  "\n\n━━━━━━━━━━━━━━━━━━━━━━\n\n🤖 _تم المعالجة تلقائياً بواسطة الذكاء الاصطناعي_\n_Processed automatically by AI_\n\n_للمزيد من التفاصيل، يرجى مراجعة نظام MEDGO_\n_For more details, please check MEDGO system_"

/-- formatResponseMessage: renders the fixed bilingual result template around
the approval number, the status letter, and the verbatim summary text. -/
def formatResponseMessage (approvalNumber csMessage overallResponse : String) : String :=
  statusEmoji overallResponse ++ resultHeaderPart ++ approvalNumber ++ resultStatusPart ++ overallResponse ++ resultSeparatorPart ++ csMessage ++ resultFooterPart

/-- The body of the single message that ends a valid-code request, chosen
from the awaited outcome of the processing call: the formatted result when
the response data has a truthy ui_output_8, the generic error message when it
does not, and the bilingual fallback when the call rejected. -/
def finalMessageBody (approvalNumber : String) : ApiOutcome → String
  | ApiOutcome.success result =>
    match result with
    | some r =>
      if truthyStr r.ui_output_8 then
        formatResponseMessage approvalNumber (r.ui_output_8.getD "")
          (jsOr r.overall_response "A")
      else
        errorMessageBody processFailedText
    | none => errorMessageBody processFailedText
  | ApiOutcome.failure => fallbackMessage approvalNumber

/-- The delivery-endpoint send that ends a valid-code request, addressed to
the sender. -/
def finalEvent (phoneNumber approvalNumber : String) (api : ApiOutcome) : Event :=
  Event.send phoneNumber (finalMessageBody approvalNumber api)

/-- processIncomingMessage: trims the message text; on an invalid code sends
the help template and stops; on a valid code starts the processing call,
sends the acknowledgment after the fixed delay, then awaits the call and
sends exactly one final message according to its outcome. -/
def processIncomingMessage (phoneNumber messageText : String) (api : ApiOutcome) :
    List Event :=
  let approvalNumber := jsTrim messageText
  if !(isEightDigits approvalNumber) then
    [Event.send phoneNumber helpMessage]
  else
    [Event.callProcessing approvalNumber,
     Event.send phoneNumber (ackMessage approvalNumber),
     finalEvent phoneNumber approvalNumber api]

/-- The text attachment of an inbound message (message.text), whose body
field may be absent. -/
structure TextContent where
  body : Option String
  deriving DecidableEq, Repr

/-- An inbound platform message. The field modelling message.from is named
msgFrom. Only messages whose type is "text" are processed. -/
structure Message where
  msgFrom : String
  id : String
  type : String
  text : Option TextContent
  deriving DecidableEq, Repr

/-- One change.value object; its messages array may be absent. -/
structure Value where
  messages : Option (List Message)
  deriving DecidableEq, Repr

/-- One element of entry.changes; its value object may be absent. -/
structure Change where
  value : Option Value
  deriving DecidableEq, Repr

/-- One element of data.entry; its changes array may be absent. -/
structure Entry where
  changes : Option (List Change)
  deriving DecidableEq, Repr

/-- The notification payload of a webhook POST; its entry array may be
absent. -/
structure Payload where
  entry : Option (List Entry)
  deriving DecidableEq, Repr

/-- The messages of one change.value, an absent value or messages array
read as empty (value.messages or []). -/
def messagesOfValue (value : Value) : List Message :=
  value.messages.getD []

/-- The messages of one change (change.value or an empty object). -/
def messagesOfChange (change : Change) : List Message :=
  messagesOfValue (change.value.getD ⟨none⟩)

/-- The messages of one entry, iterating entry.changes or []. -/
def messagesOfEntry (e : Entry) : List Message :=
  (e.changes.getD []).flatMap messagesOfChange

/-- All messages of the payload; a falsy data.entry ends processing with no
messages. -/
def extractedMessages (data : Payload) : List Message :=
  match data.entry with
  | none => []
  | some entries => entries.flatMap messagesOfEntry

/-- The message body handed to the orchestrator: message.text with optional
chaining on body, defaulting to the empty string. -/
def messageBodyText (m : Message) : String :=
  (m.text.bind TextContent.body).getD ""

/-- The (sender, text) pairs dispatched to processIncomingMessage: every
message of type "text" across all entries, changes and values, non-text
messages skipped. -/
def extractTextMessages (data : Payload) : List (String × String) :=
  (extractedMessages data).filterMap fun m =>
    if m.type == "text" then some (m.msgFrom, messageBodyText m) else none

/-- The body of the immediate 200 response to a webhook POST. -/
def webhookSuccessBody : String := "\x7b\"status\":\"success\"\x7d"

/-- handleIncomingWebhook: sends the 200 success response to the caller
first, then extracts the text messages and runs processIncomingMessage on
each, one after the other, awaiting each before the next. The api argument
gives the processing-call outcome for each (sender, text) pair. -/
def handleIncomingWebhook (data : Payload) (api : String → String → ApiOutcome) :
    List Event :=
  Event.respond 200 webhookSuccessBody ::
    (extractTextMessages data).flatMap fun p =>
      processIncomingMessage p.1 p.2 (api p.1 p.2)

/-- An HTTP response as status code and body text. -/
structure HttpResponse where
  status : Nat
  body : String
  deriving DecidableEq, Repr

/-- handleVerification: serves GET / and GET /webhook with query parameters
hub.mode, hub.verify_token and hub.challenge; echoes the challenge with
status 200 when the mode is subscribe and the token matches the configured
verification token, and answers 403 with a fixed text otherwise. -/
def handleVerification (verifyToken : String) (mode token challenge : Option String) :
    HttpResponse :=
  if mode == some "subscribe" && token == some verifyToken then
    ⟨200, challenge.getD ""⟩
  else
    ⟨403, "Verification failed"⟩

/-- Builds the payload of a notification carrying the given messages in one
entry with one change. -/
def mkNotification (msgs : List Message) : Payload :=
  ⟨some [⟨some [⟨some ⟨some msgs⟩⟩]⟩]⟩

/-- Builds an inbound text message from a sender and a body. -/
def mkTextMessage (sender body : String) : Message :=
  ⟨sender, "wamid.test", "text", some ⟨some body⟩⟩

/-- The guard `result && result.ui_output_8` of processIncomingMessage: the
response data is an object with a truthy ui_output_8 field. -/
def resultHasSummary : Option ProcResult → Bool
  | none => false
  | some r => truthyStr r.ui_output_8

/-- The first four characters of a formatted result message are those of the
chosen status glyph followed by the template header, whatever the approval
number, summary and status are. -/
theorem formatResponseMessage_take_four (n cs st : String) :
    (formatResponseMessage n cs st).data.take 4 =
      ((statusEmoji st).data ++ resultHeaderPart.data).take 4 := by
  have h1 : (formatResponseMessage n cs st).data =
      ((statusEmoji st).data ++ resultHeaderPart.data) ++
        (n.data ++ (resultStatusPart.data ++ (st.data ++
          (resultSeparatorPart.data ++ (cs.data ++ resultFooterPart.data))))) := by
    simp [formatResponseMessage, String.data_append]
  rw [h1, List.take_append_of_le_length]
  have h2 : 4 ≤ resultHeaderPart.data.length := by decide
  simp only [List.length_append]
  omega

/-- No formatted result message equals the generic error body: their first
four characters differ in every branch of the glyph table. -/
theorem formatResponseMessage_ne_errorBody (n cs st : String) :
    formatResponseMessage n cs st ≠ errorMessageBody processFailedText := by
  intro hEq
  have h4 := formatResponseMessage_take_four n cs st
  rw [hEq] at h4
  unfold statusEmoji at h4
  split at h4
  · exact absurd h4 (by decide)
  · split at h4
    · exact absurd h4 (by decide)
    · split at h4
      · exact absurd h4 (by decide)
      · split at h4
        · exact absurd h4 (by decide)
        · split at h4
          · next hmem =>
            simp only [objectPrototypeKeys, List.mem_cons,
              List.not_mem_nil, or_false] at hmem
            rcases hmem with rfl | rfl | rfl | rfl | rfl | rfl | rfl | rfl |
              rfl | rfl | rfl | rfl <;> exact absurd h4 (by decide)
          · exact absurd h4 (by decide)

/-- C3: for every input whose trimmed text does not match the 8-digit
pattern, the orchestrator sends the bilingual help template to the sender
and its trace contains no call to the processing endpoint. -/
theorem invalid_input_sends_help_and_no_processing_call
    (phoneNumber messageText : String) (api : ApiOutcome)
    (h : isEightDigits (jsTrim messageText) = false) :
    processIncomingMessage phoneNumber messageText api =
      [Event.send phoneNumber helpMessage] ∧
    (processIncomingMessage phoneNumber messageText api).filter
      Event.isCallProcessing = [] := by
  have hp : processIncomingMessage phoneNumber messageText api =
      [Event.send phoneNumber helpMessage] := by
    simp [processIncomingMessage, h]
  exact ⟨hp, by rw [hp]; rfl⟩

/-- Witness for C3 at the concrete input "hello". -/
theorem invalid_input_sends_help_witness :
    isEightDigits (jsTrim "hello") = false ∧
    (processIncomingMessage "966500000000" "hello" ApiOutcome.failure =
      [Event.send "966500000000" helpMessage] ∧
    (processIncomingMessage "966500000000" "hello" ApiOutcome.failure).filter
      Event.isCallProcessing = []) :=
  ⟨by decide,
   invalid_input_sends_help_and_no_processing_call "966500000000" "hello"
     ApiOutcome.failure (by decide)⟩

/-- C4: for every valid 8-digit input, when the processing call fails
(timeout, network error or non-2xx rejection) the trace is the processing
call, the acknowledgment, and the bilingual fallback stating the code was
received and will be processed shortly; the orchestrator returns this trace
totally, no exception escapes. -/
theorem processing_failure_sends_fallback
    (phoneNumber messageText : String)
    (h : isEightDigits (jsTrim messageText) = true) :
    processIncomingMessage phoneNumber messageText ApiOutcome.failure =
      [Event.callProcessing (jsTrim messageText),
       Event.send phoneNumber (ackMessage (jsTrim messageText)),
       Event.send phoneNumber (fallbackMessage (jsTrim messageText))] := by
  simp [processIncomingMessage, h, finalEvent, finalMessageBody]

/-- Witness for C4 at the concrete input "12345678". -/
theorem processing_failure_sends_fallback_witness :
    isEightDigits (jsTrim "12345678") = true ∧
    processIncomingMessage "966500000000" "12345678" ApiOutcome.failure =
      [Event.callProcessing (jsTrim "12345678"),
       Event.send "966500000000" (ackMessage (jsTrim "12345678")),
       Event.send "966500000000" (fallbackMessage (jsTrim "12345678"))] :=
  ⟨by decide,
   processing_failure_sends_fallback "966500000000" "12345678" (by decide)⟩

/-- C1: for every input whose trimmed text matches the 8-digit pattern, the
orchestrator sends exactly one acknowledgment message and exactly one final
message — the formatted result, the generic format-error text, or the
fallback — whatever the processing outcome: never zero messages and never
more than two. -/
theorem valid_code_sends_one_ack_and_one_final
    (phoneNumber messageText : String) (api : ApiOutcome)
    (h : isEightDigits (jsTrim messageText) = true) :
    ∃ finalBody,
      processIncomingMessage phoneNumber messageText api =
        [Event.callProcessing (jsTrim messageText),
         Event.send phoneNumber (ackMessage (jsTrim messageText)),
         Event.send phoneNumber finalBody] ∧
      ((∃ cs st, finalBody = formatResponseMessage (jsTrim messageText) cs st) ∨
       finalBody = errorMessageBody processFailedText ∨
       finalBody = fallbackMessage (jsTrim messageText)) := by
  have hp : processIncomingMessage phoneNumber messageText api =
      [Event.callProcessing (jsTrim messageText),
       Event.send phoneNumber (ackMessage (jsTrim messageText)),
       finalEvent phoneNumber (jsTrim messageText) api] := by
    simp [processIncomingMessage, h]
  cases api with
  | success result =>
    cases result with
    | none =>
      exact ⟨errorMessageBody processFailedText, by rw [hp]; rfl,
        Or.inr (Or.inl rfl)⟩
    | some r =>
      by_cases ht : truthyStr r.ui_output_8 = true
      · refine ⟨formatResponseMessage (jsTrim messageText)
          (r.ui_output_8.getD "") (jsOr r.overall_response "A"),
          ?_, Or.inl ⟨_, _, rfl⟩⟩
        rw [hp]
        simp [finalEvent, finalMessageBody, ht]
      · have ht' : truthyStr r.ui_output_8 = false := by
          simpa using ht
        refine ⟨errorMessageBody processFailedText, ?_, Or.inr (Or.inl rfl)⟩
        rw [hp]
        simp [finalEvent, finalMessageBody, ht']
  | failure =>
    exact ⟨fallbackMessage (jsTrim messageText), by rw [hp]; rfl,
      Or.inr (Or.inr rfl)⟩

/-- Witness for C1 at the concrete input "12345678" with a failing
processing call. -/
theorem valid_code_sends_one_ack_and_one_final_witness :
    isEightDigits (jsTrim "12345678") = true ∧
    ∃ finalBody,
      processIncomingMessage "966500000000" "12345678" ApiOutcome.failure =
        [Event.callProcessing (jsTrim "12345678"),
         Event.send "966500000000" (ackMessage (jsTrim "12345678")),
         Event.send "966500000000" finalBody] ∧
      ((∃ cs st, finalBody = formatResponseMessage (jsTrim "12345678") cs st) ∨
       finalBody = errorMessageBody processFailedText ∨
       finalBody = fallbackMessage (jsTrim "12345678")) :=
  ⟨by decide,
   valid_code_sends_one_ack_and_one_final "966500000000" "12345678"
     ApiOutcome.failure (by decide)⟩

/-- Counterexample to C5 as stated: the status value "constructor" differs
from every key of the glyph table, yet the lookup does not fall back to the
generic 📋 glyph — the object literal inherits a truthy constructor member
from Object.prototype, so the or-default is skipped and the rendered glyph
slot is the stringified Object function. -/
theorem statusEmoji_constructor_not_generic :
    "constructor" ≠ "A" ∧ "constructor" ≠ "D" ∧ "constructor" ≠ "F" ∧
    "constructor" ≠ "P" ∧
    statusEmoji "constructor" = "function Object() \x7b [native code] \x7d" ∧
    statusEmoji "constructor" ≠ "📋" :=
  ⟨by decide, by decide, by decide, by decide, by decide, by decide⟩

/-- C5 amended: the formatter is a pure function mapping the status code to
a leading glyph by the fixed table (A to the check mark, D to the cross, F
and P to the warning sign); any other value that does not name a member
inherited from Object.prototype maps to the generic clipboard glyph, while
a value naming an inherited member yields that truthy member instead of the
generic glyph. It renders the fixed bilingual template that embeds the
approval code, the status letter and the summary text verbatim; in
particular for summary "X" and status "A" the message carries the
check-mark glyph, the literal approval code, the letter "A" and the text
"X". -/
theorem formatResponseMessage_glyph_table_and_template :
    statusEmoji "A" = "✅" ∧ statusEmoji "D" = "❌" ∧
    statusEmoji "F" = "⚠️" ∧ statusEmoji "P" = "⚠️" ∧
    (∀ st, st ≠ "A" → st ≠ "D" → st ≠ "F" → st ≠ "P" →
      st ∉ objectPrototypeKeys → statusEmoji st = "📋") ∧
    (∀ st, st ≠ "A" → st ≠ "D" → st ≠ "F" → st ≠ "P" →
      st ∈ objectPrototypeKeys →
      statusEmoji st = inheritedMemberString st ∧ statusEmoji st ≠ "📋") ∧
    (∀ approvalNumber csMessage overallResponse, ∃ s1 s2 s3 s4,
      formatResponseMessage approvalNumber csMessage overallResponse =
        statusEmoji overallResponse ++ s1 ++ approvalNumber ++ s2 ++
          overallResponse ++ s3 ++ csMessage ++ s4) ∧
    (∀ approvalNumber, ∃ s1 s2 s3 s4,
      formatResponseMessage approvalNumber "X" "A" =
        "✅" ++ s1 ++ approvalNumber ++ s2 ++ "A" ++ s3 ++ "X" ++ s4) := by
  refine ⟨rfl, rfl, rfl, rfl, ?_, ?_, ?_, ?_⟩
  · intro st h1 h2 h3 h4 h5
    simp [statusEmoji, h1, h2, h3, h4, h5]
  · intro st h1 h2 h3 h4 hmem
    refine ⟨by simp [statusEmoji, h1, h2, h3, h4, hmem], ?_⟩
    have hval : statusEmoji st = inheritedMemberString st := by
      simp [statusEmoji, h1, h2, h3, h4, hmem]
    rw [hval]
    simp only [objectPrototypeKeys, List.mem_cons,
      List.not_mem_nil, or_false] at hmem
    rcases hmem with rfl | rfl | rfl | rfl | rfl | rfl | rfl | rfl |
      rfl | rfl | rfl | rfl <;> decide
  · intro approvalNumber csMessage overallResponse
    exact ⟨resultHeaderPart, resultStatusPart, resultSeparatorPart,
      resultFooterPart, rfl⟩
  · intro approvalNumber
    exact ⟨resultHeaderPart, resultStatusPart, resultSeparatorPart,
      resultFooterPart, rfl⟩

/-- Witness for C5: the default glyph at the concrete status "Z", the
inherited member at the concrete status "toString", and the concrete
instance with summary "X" and status "A". -/
theorem formatResponseMessage_glyph_table_witness :
    statusEmoji "Z" = "📋" ∧
    (statusEmoji "toString" = inheritedMemberString "toString" ∧
      statusEmoji "toString" ≠ "📋") ∧
    ∃ s1 s2 s3 s4,
      formatResponseMessage "88825481" "X" "A" =
        "✅" ++ s1 ++ "88825481" ++ s2 ++ "A" ++ s3 ++ "X" ++ s4 := by
  obtain ⟨-, -, -, -, hdefault, hinherited, -, hinstance⟩ :=
    formatResponseMessage_glyph_table_and_template
  exact ⟨hdefault "Z" (by decide) (by decide) (by decide) (by decide)
      (by decide),
    hinherited "toString" (by decide) (by decide) (by decide) (by decide)
      (by decide),
    hinstance "88825481"⟩

/-- C6: for every valid 8-digit input, when the processing call resolves but
its data lacks a truthy ui_output_8 summary the final send is the generic
bilingual error text, which is not the formatted result template. -/
theorem missing_summary_sends_generic_error
    (phoneNumber messageText : String) (result : Option ProcResult)
    (h : isEightDigits (jsTrim messageText) = true)
    (hs : resultHasSummary result = false) :
    processIncomingMessage phoneNumber messageText (ApiOutcome.success result) =
      [Event.callProcessing (jsTrim messageText),
       Event.send phoneNumber (ackMessage (jsTrim messageText)),
       Event.send phoneNumber (errorMessageBody processFailedText)] ∧
    ∀ cs st, errorMessageBody processFailedText ≠
      formatResponseMessage (jsTrim messageText) cs st := by
  constructor
  · cases result with
    | none => simp [processIncomingMessage, h, finalEvent, finalMessageBody]
    | some r =>
      have ht : truthyStr r.ui_output_8 = false := by
        simpa [resultHasSummary] using hs
      simp [processIncomingMessage, h, finalEvent, finalMessageBody, ht]
  · intro cs st hEq
    exact formatResponseMessage_ne_errorBody (jsTrim messageText) cs st hEq.symm

/-- Witness for C6 at the concrete input "12345678" with a resolved call
whose data has an empty ui_output_8. -/
theorem missing_summary_sends_generic_error_witness :
    isEightDigits (jsTrim "12345678") = true ∧
    resultHasSummary (some ⟨some "", none⟩) = false ∧
    (processIncomingMessage "966500000000" "12345678"
        (ApiOutcome.success (some ⟨some "", none⟩)) =
      [Event.callProcessing (jsTrim "12345678"),
       Event.send "966500000000" (ackMessage (jsTrim "12345678")),
       Event.send "966500000000" (errorMessageBody processFailedText)] ∧
    ∀ cs st, errorMessageBody processFailedText ≠
      formatResponseMessage (jsTrim "12345678") cs st) :=
  ⟨by decide, by decide,
   missing_summary_sends_generic_error "966500000000" "12345678"
     (some ⟨some "", none⟩) (by decide) (by decide)⟩

/-- C10: when the processing call resolves with a truthy ui_output_8 summary
but a missing or falsy overall_response, the status defaults to "A" and the
final message is the formatted result rendered as a success: it starts with
the check-mark glyph and carries status letter "A". -/
theorem missing_overall_response_defaults_to_A
    (phoneNumber messageText : String) (r : ProcResult)
    (h : isEightDigits (jsTrim messageText) = true)
    (hcs : truthyStr r.ui_output_8 = true)
    (hor : truthyStr r.overall_response = false) :
    processIncomingMessage phoneNumber messageText (ApiOutcome.success (some r)) =
      [Event.callProcessing (jsTrim messageText),
       Event.send phoneNumber (ackMessage (jsTrim messageText)),
       Event.send phoneNumber
         (formatResponseMessage (jsTrim messageText) (r.ui_output_8.getD "") "A")] ∧
    ∃ rest,
      formatResponseMessage (jsTrim messageText) (r.ui_output_8.getD "") "A" =
        "✅" ++ rest := by
  have hA : jsOr r.overall_response "A" = "A" := by
    cases hov : r.overall_response with
    | none => rfl
    | some s =>
      have hse : (s == "") = true := by
        have := hor
        rw [hov] at this
        simpa [truthyStr] using this
      simp [jsOr, hse]
  refine ⟨?_, ?_⟩
  · simp [processIncomingMessage, h, finalEvent, finalMessageBody, hcs, hA]
  · refine ⟨resultHeaderPart ++ (jsTrim messageText ++ (resultStatusPart ++
      ("A" ++ (resultSeparatorPart ++ ((r.ui_output_8.getD "") ++
        resultFooterPart))))), ?_⟩
    apply String.ext
    simp [formatResponseMessage, statusEmoji, String.data_append]

/-- Witness for C10 at the concrete input "12345678" with summary "X" and an
absent overall_response. -/
theorem missing_overall_response_defaults_to_A_witness :
    isEightDigits (jsTrim "12345678") = true ∧
    truthyStr (some "X") = true ∧
    truthyStr (none : Option String) = false ∧
    (processIncomingMessage "966500000000" "12345678"
        (ApiOutcome.success (some ⟨some "X", none⟩)) =
      [Event.callProcessing (jsTrim "12345678"),
       Event.send "966500000000" (ackMessage (jsTrim "12345678")),
       Event.send "966500000000"
         (formatResponseMessage (jsTrim "12345678")
           ((some "X" : Option String).getD "") "A")] ∧
    ∃ rest,
      formatResponseMessage (jsTrim "12345678")
        ((some "X" : Option String).getD "") "A" = "✅" ++ rest) :=
  ⟨by decide, by decide, by decide,
   missing_overall_response_defaults_to_A "966500000000" "12345678"
     ⟨some "X", none⟩ (by decide) (by decide) (by decide)⟩

/-- C7: a verification query succeeds with status 200 and the echoed
challenge exactly when the mode is "subscribe" and the token equals the
configured verification token; in every other case the answer is status 403
with the fixed text "Verification failed", which does not depend on the
secret. -/
theorem verification_succeeds_iff_mode_and_token_match
    (verifyToken : String) (mode token challenge : Option String) :
    (handleVerification verifyToken mode token challenge =
        ⟨200, challenge.getD ""⟩ ↔
      (mode = some "subscribe" ∧ token = some verifyToken)) ∧
    (¬(mode = some "subscribe" ∧ token = some verifyToken) →
      handleVerification verifyToken mode token challenge =
        ⟨403, "Verification failed"⟩) := by
  by_cases hc : mode = some "subscribe" ∧ token = some verifyToken
  · obtain ⟨h1, h2⟩ := hc
    refine ⟨⟨fun _ => ⟨h1, h2⟩, fun _ => ?_⟩, fun hneg => absurd ⟨h1, h2⟩ hneg⟩
    simp [handleVerification, h1, h2]
  · have hcond : (mode == some "subscribe" && token == some verifyToken) = false := by
      rw [Bool.eq_false_iff]
      intro hcontra
      exact hc (by simpa [Bool.and_eq_true, beq_iff_eq] using hcontra)
    refine ⟨⟨fun hres => ?_, fun habs => absurd habs hc⟩, fun _ => ?_⟩
    · exfalso
      rw [handleVerification, hcond] at hres
      simp at hres
    · rw [handleVerification, hcond]
      simp

/-- Witness for C7 with the default configured token: a matching query is
echoed with 200 and a mismatched token gets the fixed 403 text. -/
theorem verification_witness :
    handleVerification "wa_api_2026" (some "subscribe") (some "wa_api_2026")
      (some "challenge-string") = ⟨200, "challenge-string"⟩ ∧
    handleVerification "wa_api_2026" (some "subscribe") (some "wrong")
      (some "challenge-string") = ⟨403, "Verification failed"⟩ :=
  ⟨(verification_succeeds_iff_mode_and_token_match "wa_api_2026"
      (some "subscribe") (some "wa_api_2026") (some "challenge-string")).1.mpr
      ⟨rfl, rfl⟩,
   (verification_succeeds_iff_mode_and_token_match "wa_api_2026"
      (some "subscribe") (some "wrong") (some "challenge-string")).2
      (fun h => absurd h.2 (by decide))⟩

/-- Every event of an orchestrator trace is a processing call or a delivery
send, never an HTTP response. -/
theorem processIncomingMessage_events_not_respond
    (phoneNumber messageText : String) (api : ApiOutcome) (e : Event)
    (he : e ∈ processIncomingMessage phoneNumber messageText api) :
    e.isRespond = false := by
  simp only [processIncomingMessage] at he
  split at he
  · simp only [List.mem_singleton] at he
    subst he
    rfl
  · simp only [List.mem_cons, List.mem_singleton, List.not_mem_nil, or_false] at he
    rcases he with h | h | h <;> subst h
    · rfl
    · rfl
    · rfl

/-- C2: for every notification payload — including degenerate ones with any
level of nesting absent — and every behaviour of the downstream calls, the
webhook POST handler answers first, with status 200 and the fixed success
body, and no later event of the handler is an HTTP response: downstream
outcomes never surface as a non-200 answer. -/
theorem webhook_post_always_responds_200_success
    (data : Payload) (api : String → String → ApiOutcome) :
    (handleIncomingWebhook data api).head? =
      some (Event.respond 200 webhookSuccessBody) ∧
    (handleIncomingWebhook data api).filter Event.isRespond =
      [Event.respond 200 webhookSuccessBody] := by
  refine ⟨rfl, ?_⟩
  have hnil : ((extractTextMessages data).flatMap fun p =>
      processIncomingMessage p.1 p.2 (api p.1 p.2)).filter Event.isRespond = [] := by
    rw [List.filter_eq_nil_iff]
    intro e he
    rw [List.mem_flatMap] at he
    obtain ⟨pr, _, hin⟩ := he
    simp [processIncomingMessage_events_not_respond pr.1 pr.2 (api pr.1 pr.2) e hin]
  simp only [handleIncomingWebhook, List.filter_cons]
  rw [hnil]
  rfl

/-- A notification whose only entry has a missing changes array, a change
with a missing value, and a value with a missing messages array. -/
def notificationWithMissingLevels : Payload :=
  ⟨some [⟨none⟩, ⟨some [⟨none⟩, ⟨some ⟨none⟩⟩]⟩]⟩

/-- C8: a missing nesting level of the inbound notification — entry,
changes, value or messages — reads as an empty collection: it contributes no
messages, the orchestrator runs zero times on the missing branch, and the
handler still answers normally. -/
theorem missing_nesting_levels_treated_as_empty :
    (∀ api, handleIncomingWebhook ⟨none⟩ api =
      [Event.respond 200 webhookSuccessBody]) ∧
    (∀ api, handleIncomingWebhook notificationWithMissingLevels api =
      [Event.respond 200 webhookSuccessBody]) ∧
    (∀ e : Entry, e.changes = none → messagesOfEntry e = []) ∧
    (∀ c : Change, c.value = none → messagesOfChange c = []) ∧
    (∀ v : Value, v.messages = none → messagesOfValue v = []) ∧
    extractTextMessages ⟨none⟩ = [] := by
  refine ⟨fun api => rfl, fun api => rfl, ?_, ?_, ?_, rfl⟩
  · intro e he
    simp [messagesOfEntry, he]
  · intro c hcv
    simp [messagesOfChange, hcv, messagesOfValue]
  · intro v hv
    simp [messagesOfValue, hv]

/-- Witness for C8 at concrete one-level records with the respective level
absent. -/
theorem missing_nesting_levels_witness :
    messagesOfEntry ⟨none⟩ = [] ∧ messagesOfChange ⟨none⟩ = [] ∧
    messagesOfValue ⟨none⟩ = [] := by
  obtain ⟨-, -, he, hc, hv, -⟩ := missing_nesting_levels_treated_as_empty
  exact ⟨he ⟨none⟩ rfl, hc ⟨none⟩ rfl, hv ⟨none⟩ rfl⟩

/-- Counterexample to C9 as stated: with two valid text messages in one
notification the handler produces exactly one trace, and in it every event
of the first message — its processing call, acknowledgment and final
message — precedes every event of the second. The acknowledgments and
results of two messages are never interleaved, against the claimed absence
of an ordering guarantee. -/
theorem two_messages_never_interleaved_concrete :
    handleIncomingWebhook
      (mkNotification [mkTextMessage "966111" "11111111",
                       mkTextMessage "966222" "22222222"])
      (fun _ _ => ApiOutcome.failure) =
    [Event.respond 200 webhookSuccessBody,
     Event.callProcessing "11111111",
     Event.send "966111" (ackMessage "11111111"),
     Event.send "966111" (fallbackMessage "11111111"),
     Event.callProcessing "22222222",
     Event.send "966222" (ackMessage "22222222"),
     Event.send "966222" (fallbackMessage "22222222")] := rfl

/-- C9 amended: the messages of one notification are processed strictly
sequentially in notification order — each message is awaited before the
next starts, so for two valid text messages the whole trace of the first
(processing call, acknowledgment, final message) precedes the whole trace
of the second. -/
theorem two_messages_processed_in_order
    (s1 t1 s2 t2 : String) (api : String → String → ApiOutcome)
    (h1 : isEightDigits (jsTrim t1) = true)
    (h2 : isEightDigits (jsTrim t2) = true) :
    ∃ f1 f2,
      handleIncomingWebhook
        (mkNotification [mkTextMessage s1 t1, mkTextMessage s2 t2]) api =
      [Event.respond 200 webhookSuccessBody,
       Event.callProcessing (jsTrim t1),
       Event.send s1 (ackMessage (jsTrim t1)),
       Event.send s1 f1,
       Event.callProcessing (jsTrim t2),
       Event.send s2 (ackMessage (jsTrim t2)),
       Event.send s2 f2] := by
  refine ⟨finalMessageBody (jsTrim t1) (api s1 t1),
          finalMessageBody (jsTrim t2) (api s2 t2), ?_⟩
  simp [handleIncomingWebhook, extractTextMessages, extractedMessages,
    mkNotification, mkTextMessage, messagesOfEntry, messagesOfChange,
    messagesOfValue, messageBodyText, processIncomingMessage, h1, h2,
    finalEvent]

/-- Witness for the amended C9 at two concrete valid messages. -/
theorem two_messages_processed_in_order_witness :
    isEightDigits (jsTrim "33333333") = true ∧
    isEightDigits (jsTrim "44444444") = true ∧
    ∃ f1 f2,
      handleIncomingWebhook
        (mkNotification [mkTextMessage "966333" "33333333",
                         mkTextMessage "966444" "44444444"])
        (fun _ _ => ApiOutcome.failure) =
      [Event.respond 200 webhookSuccessBody,
       Event.callProcessing (jsTrim "33333333"),
       Event.send "966333" (ackMessage (jsTrim "33333333")),
       Event.send "966333" f1,
       Event.callProcessing (jsTrim "44444444"),
       Event.send "966444" (ackMessage (jsTrim "44444444")),
       Event.send "966444" f2] :=
  ⟨by decide, by decide,
   two_messages_processed_in_order "966333" "33333333" "966444" "44444444"
     (fun _ _ => ApiOutcome.failure) (by decide) (by decide)⟩

end WaApi

example : WaApi.extractTextMessages (WaApi.mkNotification
    [WaApi.mkTextMessage "966" "12345678", WaApi.mkTextMessage "967" "hi"]) =
    [("966", "12345678"), ("967", "hi")] := rfl

example : WaApi.handleVerification "wa_api_2026" (some "subscribe")
    (some "wa_api_2026") (some "ch") = ⟨200, "ch"⟩ := rfl

example : WaApi.handleVerification "wa_api_2026" (some "subscribe")
    (some "wrong") (some "ch") = ⟨403, "Verification failed"⟩ := rfl

example : WaApi.processIncomingMessage "966" "hello" WaApi.ApiOutcome.failure =
    [WaApi.Event.send "966" WaApi.helpMessage] := rfl

example : WaApi.processIncomingMessage "966" "12345678" WaApi.ApiOutcome.failure =
    [WaApi.Event.callProcessing "12345678",
     WaApi.Event.send "966" (WaApi.ackMessage "12345678"),
     WaApi.Event.send "966" (WaApi.fallbackMessage "12345678")] := rfl
